import Mathlib

/-!
Shallow embedding of the geometric validation, correction and resampling
pipeline of `radiomics/imageoperations.py` (functions `checkMask`,
`_correctMask`, `_checkROI`, `cropToTumorMask`, `resampleImage`).

The floating-point arithmetic of the source is modelled exactly over the
rationals.  Because the standard rational operations of the ambient library
are deliberately opaque to definitional reduction, the embedding computes
with thin wrappers (`qadd`, `qmul`, ...) built from the reducible smart
constructor `mkRat`; each wrapper is proved equal to the standard operation,
so statements and proofs can still speak in ordinary arithmetic while every
concrete instance evaluates by `decide`.

Voxel grids are finite index ranges and per-voxel data are functions from
indices to values.  External SimpleITK primitives (label statistics,
nearest-neighbor resampling onto a reference grid, cropping) are modelled
according to their documented behaviour as described by the spec (sections
3, 4.3 and 6), since they are third-party collaborators and not part of
this repository.
-/

namespace Radiomics

/-- Rational addition through the reducible smart constructor. -/
def qadd (a b : ℚ) : ℚ := mkRat (a.num * b.den + b.num * a.den) (a.den * b.den)

/-- Rational subtraction through the reducible smart constructor. -/
def qsub (a b : ℚ) : ℚ := mkRat (a.num * b.den - b.num * a.den) (a.den * b.den)

/-- Rational multiplication through the reducible smart constructor. -/
def qmul (a b : ℚ) : ℚ := mkRat (a.num * b.num) (a.den * b.den)

/-- Rational division through the reducible quotient constructor; division by
zero yields zero, as for the standard operation. -/
def qdiv (a b : ℚ) : ℚ := Rat.divInt (a.num * b.den) (b.num * a.den)

/-- Floor of a rational number, computable by reduction. -/
def qfloor (a : ℚ) : ℤ := Rat.floor a

/-- Ceiling of a rational number, computable by reduction. -/
def qceil (a : ℚ) : ℤ := -(Rat.floor (-a))

/-- The constant one half, the voxel-center to voxel-corner offset. -/
def qhalf : ℚ := mkRat 1 2

/-- The geometry tolerance 1e-3 of the source function checkROI. -/
def qtol : ℚ := mkRat 1 1000

/-- Rounding to the nearest integer, halves rounding up. -/
def qround (a : ℚ) : ℤ := qfloor (qadd a qhalf)

/-- Absolute value of a rational number, computable by reduction. -/
def qabs (a : ℚ) : ℚ := if a < 0 then -a else a

/-- Minimum of two rational numbers, computable by reduction. -/
def qmin (a b : ℚ) : ℚ := if a ≤ b then a else b

/-- Maximum of two rational numbers, computable by reduction. -/
def qmax (a b : ℚ) : ℚ := if a ≤ b then b else a

/-- A 3-component vector, used for sizes, spacings, origins and indices. -/
structure Vec3 (A : Type) where
  x : A
  y : A
  z : A
deriving DecidableEq, Repr

/-- Component projection by axis number (0, 1, 2). -/
def Vec3.nth {A : Type} (v : Vec3 A) : Fin 3 → A
  | 0 => v.x
  | 1 => v.y
  | 2 => v.z

/-- Componentwise map. -/
def Vec3.map {A B : Type} (f : A → B) (v : Vec3 A) : Vec3 B :=
  ⟨f v.x, f v.y, f v.z⟩

/-- Componentwise binary map. -/
def Vec3.map2 {A B C : Type} (f : A → B → C) (u : Vec3 A) (v : Vec3 B) : Vec3 C :=
  ⟨f u.x v.x, f u.y v.y, f u.z v.z⟩

/-- Componentwise ternary map. -/
def Vec3.map3 {A B C D : Type} (f : A → B → C → D) (u : Vec3 A) (v : Vec3 B) (w : Vec3 C) :
    Vec3 D :=
  ⟨f u.x v.x w.x, f u.y v.y w.y, f u.z v.z w.z⟩

/-- Constant vector. -/
def vconst {A : Type} (a : A) : Vec3 A := ⟨a, a, a⟩

/-- Natural-number index vector coerced into the rationals. -/
def vtoQ (v : Vec3 ℕ) : Vec3 ℚ := v.map (fun n : ℕ => (n : ℚ))

/-- Integer vector coerced into the rationals. -/
def vtoQZ (v : Vec3 ℤ) : Vec3 ℚ := v.map (fun n : ℤ => (n : ℚ))

/-- Componentwise rational addition. -/
def vadd (u v : Vec3 ℚ) : Vec3 ℚ := Vec3.map2 qadd u v

/-- Componentwise rational subtraction. -/
def vsub (u v : Vec3 ℚ) : Vec3 ℚ := Vec3.map2 qsub u v

/-- Componentwise rational multiplication. -/
def vmul (u v : Vec3 ℚ) : Vec3 ℚ := Vec3.map2 qmul u v

/-- Componentwise rational division. -/
def vdiv (u v : Vec3 ℚ) : Vec3 ℚ := Vec3.map2 qdiv u v

/-- Componentwise minimum of two rational vectors. -/
def vmin (u v : Vec3 ℚ) : Vec3 ℚ := Vec3.map2 qmin u v

/-- Componentwise maximum of two rational vectors. -/
def vmax (u v : Vec3 ℚ) : Vec3 ℚ := Vec3.map2 qmax u v

/-- Componentwise floor of a rational vector. -/
def vfloor (v : Vec3 ℚ) : Vec3 ℤ := v.map qfloor

/-- Componentwise ceiling of a rational vector. -/
def vceil (v : Vec3 ℚ) : Vec3 ℤ := v.map qceil

/-- True when some component of `u` is strictly below the matching component of `v`. -/
def anyLt (u v : Vec3 ℚ) : Bool :=
  decide (u.x < v.x) || decide (u.y < v.y) || decide (u.z < v.z)

/-- True when some component of `u` is strictly above the matching component of `v`. -/
def anyGt (u v : Vec3 ℚ) : Bool :=
  decide (v.x < u.x) || decide (v.y < u.y) || decide (v.z < u.z)

/-- A 3 by 3 rational matrix in row-major order, modelling a direction matrix. -/
structure Mat3 where
  a : ℚ
  b : ℚ
  c : ℚ
  d : ℚ
  e : ℚ
  f : ℚ
  g : ℚ
  h : ℚ
  i : ℚ
deriving DecidableEq, Repr

/-- Matrix-vector product. -/
def Mat3.mv (M : Mat3) (v : Vec3 ℚ) : Vec3 ℚ :=
  ⟨qadd (qadd (qmul M.a v.x) (qmul M.b v.y)) (qmul M.c v.z),
   qadd (qadd (qmul M.d v.x) (qmul M.e v.y)) (qmul M.f v.z),
   qadd (qadd (qmul M.g v.x) (qmul M.h v.y)) (qmul M.i v.z)⟩

/-- Determinant of a 3 by 3 matrix. -/
def Mat3.det (M : Mat3) : ℚ :=
  qadd (qsub (qmul M.a (qsub (qmul M.e M.i) (qmul M.f M.h)))
    (qmul M.b (qsub (qmul M.d M.i) (qmul M.f M.g))))
    (qmul M.c (qsub (qmul M.d M.h) (qmul M.e M.g)))

/-- Inverse by the adjugate formula; meaningful whenever the determinant is
nonzero (direction matrices are orthonormal, hence invertible, per spec
section 3). -/
def Mat3.inv (M : Mat3) : Mat3 :=
  let dt := M.det
  ⟨qdiv (qsub (qmul M.e M.i) (qmul M.f M.h)) dt,
   qdiv (qsub (qmul M.c M.h) (qmul M.b M.i)) dt,
   qdiv (qsub (qmul M.b M.f) (qmul M.c M.e)) dt,
   qdiv (qsub (qmul M.f M.g) (qmul M.d M.i)) dt,
   qdiv (qsub (qmul M.a M.i) (qmul M.c M.g)) dt,
   qdiv (qsub (qmul M.c M.d) (qmul M.a M.f)) dt,
   qdiv (qsub (qmul M.d M.h) (qmul M.e M.g)) dt,
   qdiv (qsub (qmul M.b M.g) (qmul M.a M.h)) dt,
   qdiv (qsub (qmul M.a M.e) (qmul M.b M.d)) dt⟩

/-- The identity direction matrix. -/
def Mat3.id : Mat3 := ⟨1, 0, 0, 0, 1, 0, 0, 0, 1⟩

/-- Geometry of a volumetric grid: voxel counts, physical spacing, physical
position of the center of voxel (0,0,0) and the direction matrix
(spec section 3, VolumetricGrid). -/
structure Grid where
  size : Vec3 ℕ
  spacing : Vec3 ℚ
  origin : Vec3 ℚ
  direction : Mat3
deriving DecidableEq, Repr

/-- Continuous index to physical point: origin + direction * (spacing ⊙ index)
(spec section 3; SimpleITK TransformContinuousIndexToPhysicalPoint). -/
def indexToPhys (grid : Grid) (ci : Vec3 ℚ) : Vec3 ℚ :=
  vadd grid.origin (grid.direction.mv (vmul grid.spacing ci))

/-- Physical point to continuous index, the inverse transform
(spec section 3; SimpleITK TransformPhysicalPointToContinuousIndex). -/
def physToIndex (grid : Grid) (p : Vec3 ℚ) : Vec3 ℚ :=
  vdiv (grid.direction.inv.mv (vsub p grid.origin)) grid.spacing

/-- A scalar image: a grid, a pixel-type tag and a dense voxel-value map. -/
structure Image where
  grid : Grid
  pixelType : ℕ
  values : Vec3 ℕ → ℚ

/-- A label volume: a grid, a pixel-type tag and a dense integer label map;
label 0 is background. -/
structure Mask where
  grid : Grid
  pixelType : ℕ
  labels : Vec3 ℕ → ℤ

/-- All voxel indices of a grid of the given size. -/
def gridIndices (sz : Vec3 ℕ) : List (Vec3 ℕ) :=
  (List.range sz.x).flatMap fun ix =>
    (List.range sz.y).flatMap fun iy =>
      (List.range sz.z).map fun iz => ⟨ix, iy, iz⟩

/-- Indices of all voxels carrying the requested label (per-voxel scan of
label equality, spec section 4.1 step 1). -/
def labelIndices (m : Mask) (label : ℤ) : List (Vec3 ℕ) :=
  (gridIndices m.grid.size).filter fun idx => decide (m.labels idx = label)

/-- Whether the requested label occurs in the mask (SimpleITK GetLabels
membership test). -/
def labelPresent (m : Mask) (label : ℤ) : Bool :=
  !(labelIndices m label).isEmpty

/-- Voxel count of the label (SimpleITK LabelStatisticsImageFilter GetCount). -/
def lsifCount (m : Mask) (label : ℤ) : ℕ :=
  (labelIndices m label).length

/-- Componentwise minimum of two index vectors. -/
def vminN (u v : Vec3 ℕ) : Vec3 ℕ := Vec3.map2 min u v

/-- Componentwise maximum of two index vectors. -/
def vmaxN (u v : Vec3 ℕ) : Vec3 ℕ := Vec3.map2 max u v

/-- Bounding box of the label as (lower bound, upper bound) index pairs per
axis, the form returned by SimpleITK LabelStatisticsImageFilter
GetBoundingBox; none when the label is absent. -/
def lsifBB (m : Mask) (label : ℤ) : Option (Vec3 ℕ × Vec3 ℕ) :=
  match labelIndices m label with
  | [] => none
  | i0 :: rest => some (rest.foldl vminN i0, rest.foldl vmaxN i0)

/-- Bounding box of the label as (lower bound, extent) per axis, the form
returned by SimpleITK LabelShapeStatisticsImageFilter GetBoundingBox used by
the source function checkROI; none when the label is absent. -/
def maskBoundingBox (m : Mask) (label : ℤ) : Option (Vec3 ℕ × Vec3 ℕ) :=
  match labelIndices m label with
  | [] => none
  | i0 :: rest =>
    let lo := rest.foldl vminN i0
    let hi := rest.foldl vmaxN i0
    some (lo, Vec3.map2 (fun l u => u - l + 1) lo hi)

/-- The two corner points of the ROI bounding box of source lines 339-343:
the lower corner (lower bound minus half a voxel), mapped through the mask
index-to-physical transform and then the image physical-to-index transform. -/
def roiCornerLow (img : Image) (msk : Mask) (lb : Vec3 ℕ) : Vec3 ℚ :=
  physToIndex img.grid (indexToPhys msk.grid (vsub (vtoQ lb) (vconst qhalf)))

/-- The upper corner (lower bound plus extent minus half a voxel) of the ROI
bounding box, mapped into the image continuous-index space as in source
lines 340-343. -/
def roiCornerHigh (img : Image) (msk : Mask) (lb ext : Vec3 ℕ) : Vec3 ℚ :=
  physToIndex img.grid (indexToPhys msk.grid (vsub (vadd (vtoQ lb) (vtoQ ext)) (vconst qhalf)))

/-- The out-of-bounds test of source lines 349-351: the componentwise minimum
of the two corners falls below -0.5 - tolerance on some axis, or the
componentwise maximum exceeds imageSize - 0.5 + tolerance on some axis, with
tolerance 1e-3. -/
def roiOutOfBounds (img : Image) (c1 c2 : Vec3 ℚ) : Bool :=
  anyLt (vmin c1 c2) (vconst (qsub (-qhalf) qtol)) ||
  anyGt (vmax c1 c2) (vadd (vsub (vtoQ img.grid.size) (vconst qhalf)) (vconst qtol))

/-- Source function checkROI (imageoperations.py lines 306-358): returns the
bounding box (lower bound, extent) of the label in the mask index space when
the label is present and the transformed ROI corners lie within the image
index range, and none otherwise. -/
def checkROI (imageNode : Image) (maskNode : Mask) (label : ℤ) : Option (Vec3 ℕ × Vec3 ℕ) :=
  match maskBoundingBox maskNode label with
  | none => none
  | some (lb, ext) =>
    if roiOutOfBounds imageNode (roiCornerLow imageNode maskNode lb)
        (roiCornerHigh imageNode maskNode lb ext) then
      none
    else
      some (lb, ext)

/-- Nearest-neighbor sampling of a mask at the voxel centers of an output
grid: each output index is mapped to a physical point, then to a continuous
index of the input mask, and rounded to the nearest input voxel; points
outside the input grid read the default value 0.  Models the external
SimpleITK ResampleImageFilter with the sitkNearestNeighbor interpolator
(spec sections 4.2 and 6). -/
def nnSample (m : Mask) (outGrid : Grid) (idx : Vec3 ℕ) : ℤ :=
  let ci := physToIndex m.grid (indexToPhys outGrid (vtoQ idx))
  let j := ci.map qround
  if 0 ≤ j.x ∧ j.x < (m.grid.size.x : ℤ) ∧ 0 ≤ j.y ∧ j.y < (m.grid.size.y : ℤ) ∧
      0 ≤ j.z ∧ j.z < (m.grid.size.z : ℤ) then
    m.labels ⟨j.x.toNat, j.y.toNat, j.z.toNat⟩
  else
    0

/-- Resampling of a mask onto the grid of a reference image with
nearest-neighbor interpolation, keeping the mask pixel type: the
ResampleImageFilter configured with SetReferenceImage of source
lines 297-303. -/
def resampleToReference (refImage : Image) (m : Mask) : Mask :=
  ⟨refImage.grid, m.pixelType, fun idx => nnSample m refImage.grid idx⟩

/-- Source function correctMask (imageoperations.py lines 278-303): validate
the ROI first and, when it is valid, resample the mask onto the image grid
with nearest-neighbor interpolation. -/
def correctMask (imageNode : Image) (maskNode : Mask) (label : ℤ) : Option Mask :=
  match checkROI imageNode maskNode label with
  | none => none
  | some _ => some (resampleToReference imageNode maskNode)

/-- Failure modes of the external label-statistics execution, spec
section 4.3 step 1: incompatible array shape/type, or a geometry mismatch
beyond tolerance. -/
inductive LsifError where
  | dataIncompatible
  | geometryMismatch
deriving DecidableEq, Repr

/-- Componentwise closeness of two rational vectors within a tolerance. -/
def vecClose (u v : Vec3 ℚ) (tol : ℚ) : Bool :=
  decide (qabs (qsub u.x v.x) ≤ tol) && decide (qabs (qsub u.y v.y) ≤ tol) &&
  decide (qabs (qsub u.z v.z) ≤ tol)

/-- Entrywise closeness of two direction matrices within a tolerance. -/
def matClose (M N : Mat3) (tol : ℚ) : Bool :=
  decide (qabs (qsub M.a N.a) ≤ tol) && decide (qabs (qsub M.b N.b) ≤ tol) &&
  decide (qabs (qsub M.c N.c) ≤ tol) && decide (qabs (qsub M.d N.d) ≤ tol) &&
  decide (qabs (qsub M.e N.e) ≤ tol) && decide (qabs (qsub M.f N.f) ≤ tol) &&
  decide (qabs (qsub M.g N.g) ≤ tol) && decide (qabs (qsub M.h N.h) ≤ tol) &&
  decide (qabs (qsub M.i N.i) ≤ tol)

/-- Whether two grids occupy the same physical space within the geometry
tolerance: same origin, spacing and direction up to the tolerance. -/
def gridsMatch (g1 g2 : Grid) (tol : ℚ) : Bool :=
  vecClose g1.origin g2.origin tol && vecClose g1.spacing g2.spacing tol &&
  matClose g1.direction g2.direction tol

/-- Execution of the external SimpleITK LabelStatisticsImageFilter on an
image/mask pair, modelled per spec sections 4.3 and 6: it fails with
DataIncompatible when the voxel arrays have incompatible shape, and with
GeometryMismatch when the grids differ beyond the geometry tolerance;
otherwise it succeeds (none means success). -/
def lsifExec (img : Image) (m : Mask) (tol : ℚ) : Option LsifError :=
  if img.grid.size ≠ m.grid.size then
    some LsifError.dataIncompatible
  else if !(gridsMatch img.grid m.grid tol) then
    some LsifError.geometryMismatch
  else
    none

/-- The distinguishable failure reasons reported by checkMask through its
error log (spec sections 4.3 and 7). -/
inductive CheckError where
  | labelAbsent
  | dataIncompatible
  | geometryMismatch
  | correctionFailed
  | bbCalcFailed
  | tooFewDims
  | tooSmall
deriving DecidableEq, Repr

/-- Result of checkMask: the returned pair (bounding box as lower/upper index
pairs, corrected mask) together with the error reported on failure. -/
structure CheckResult where
  boundingBox : Option (Vec3 ℕ × Vec3 ℕ)
  correctedMask : Option Mask
  error : Option CheckError

/-- The error reported by checkMask when the direct statistics fail and mask
correction is disabled (source lines 232-242). -/
def lsifErrorReport : LsifError → CheckError
  | LsifError.dataIncompatible => CheckError.dataIncompatible
  | LsifError.geometryMismatch => CheckError.geometryMismatch

/-- Number of axes on which the bounding box (lower, upper) spans more than
one voxel: source line 263, numpy.sum of (UBound - LBound + 1) > 1. -/
def dimCount (lb ub : Vec3 ℕ) : ℕ :=
  (if ub.x - lb.x + 1 > 1 then 1 else 0) + (if ub.y - lb.y + 1 > 1 then 1 else 0) +
  (if ub.z - lb.z + 1 > 1 then 1 else 0)

/-- The checks of source lines 259-275 performed after a successful label
statistics execution: extract the bounding box, check the dimensionality
against minDims, and, when minSize is given, check the voxel count against
minSize.  On a failed check the source still returns the computed bounding
box together with the logged error. -/
def postChecks (statsMask : Mask) (cmOpt : Option Mask) (label : ℤ) (minDims : ℕ)
    (minSize : Option ℕ) : CheckResult :=
  match lsifBB statsMask label with
  | none => ⟨none, cmOpt, some CheckError.labelAbsent⟩
  | some (lb, ub) =>
    if dimCount lb ub ≤ minDims then
      ⟨some (lb, ub), cmOpt, some CheckError.tooFewDims⟩
    else
      match minSize with
      | none => ⟨some (lb, ub), cmOpt, none⟩
      | some ms =>
        if lsifCount statsMask label ≤ ms then
          ⟨some (lb, ub), cmOpt, some CheckError.tooSmall⟩
        else
          ⟨some (lb, ub), cmOpt, none⟩

/-- Source function checkMask (imageoperations.py lines 155-275): run the
label statistics directly; on failure either report it (correctMask
disabled) or attempt mask correction and rerun the statistics; then check
label presence, dimensionality and minimum size. -/
def checkMask (imageNode : Image) (maskNode : Mask) (label : ℤ) (minDims : ℕ)
    (minSize : Option ℕ) (correctMaskEnabled : Bool) (geometryTolerance : ℚ) : CheckResult :=
  match lsifExec imageNode maskNode geometryTolerance with
  | none =>
    if labelPresent maskNode label then
      postChecks maskNode none label minDims minSize
    else
      ⟨none, none, some CheckError.labelAbsent⟩
  | some err =>
    if correctMaskEnabled then
      match correctMask imageNode maskNode label with
      | none => ⟨none, none, some CheckError.correctionFailed⟩
      | some cm =>
        match lsifExec imageNode cm geometryTolerance with
        | none => postChecks cm (some cm) label minDims minSize
        | some _ => ⟨none, some cm, some CheckError.bbCalcFailed⟩
    else
      ⟨none, none, some (lsifErrorReport err)⟩

/-- Pixel-type tag used for the intermediate cast of the mask in
cropToTumorMask (SimpleITK sitkInt32). -/
def sitkInt32 : ℕ := 8

/-- Cast of a mask to another pixel type: in this model only the type tag
changes, label values being small integers representable in every type. -/
def castMask (t : ℕ) (m : Mask) : Mask :=
  ⟨m.grid, t, m.labels⟩

/-- Componentwise sum of two index vectors. -/
def vaddN (u v : Vec3 ℕ) : Vec3 ℕ := Vec3.map2 (fun a b => a + b) u v

/-- Grid of a volume cropped by the given lower and upper margins: the size
shrinks by both margins and the origin moves to the center of the first kept
voxel; spacing and direction are unchanged (standard crop semantics, spec
section 4.4; external SimpleITK CropImageFilter). -/
def cropGrid (g : Grid) (lo hi : Vec3 ℕ) : Grid :=
  ⟨Vec3.map3 (fun s l u => s - l - u) g.size lo hi, g.spacing, indexToPhys g (vtoQ lo),
   g.direction⟩

/-- Crop of an image by lower and upper margins: a pure index-space slice. -/
def cropImage (img : Image) (lo hi : Vec3 ℕ) : Image :=
  ⟨cropGrid img.grid lo hi, img.pixelType, fun idx => img.values (vaddN idx lo)⟩

/-- Crop of a mask by lower and upper margins: a pure index-space slice. -/
def cropMaskBy (m : Mask) (lo hi : Vec3 ℕ) : Mask :=
  ⟨cropGrid m.grid lo hi, m.pixelType, fun idx => m.labels (vaddN idx lo)⟩

/-- Source function cropToTumorMask (imageoperations.py lines 361-398): cast
the mask to Int32, compute the crop margins from the bounding box (lower
margin = lower index, upper margin = size - upper index - 1), crop image and
mask with the same margins, and cast the mask back to its original pixel
type. -/
def cropToTumorMask (imageNode : Image) (maskNode : Mask) (boundingBox : Vec3 ℕ × Vec3 ℕ) :
    Image × Mask :=
  let oldMaskID := maskNode.pixelType
  let castNode := castMask sitkInt32 maskNode
  let size := castNode.grid.size
  let ijkMinBounds := boundingBox.1
  let ijkMaxBounds := Vec3.map2 (fun s u => s - u - 1) size boundingBox.2
  let croppedImageNode := cropImage imageNode ijkMinBounds ijkMaxBounds
  let croppedMaskNode := cropMaskBy castNode ijkMinBounds ijkMaxBounds
  (croppedImageNode, castMask oldMaskID croppedMaskNode)

/-- The resampling grid computed by source lines 457-494 from the mask, the
requested output spacing, the pad distance and the ROI bounding box (lower,
extent): axes where the ROI spans a single slice keep the mask spacing; the
new bounds are the padded, scaled corner bounds clamped to the transformed
mask extent; the origin is the physical point of the new index origin. -/
def resampleGrid (msk : Mask) (resampledPixelSpacing : Vec3 ℚ) (padDistance : ℚ)
    (bb : Vec3 ℕ × Vec3 ℕ) : Grid :=
  let maskSpacing := msk.grid.spacing
  let maskSize := msk.grid.size
  let lb := bb.1
  let ext := bb.2
  let outSpacing := Vec3.map3 (fun e rs ms => if e ≠ 1 then rs else ms) ext
    resampledPixelSpacing maskSpacing
  let spacingScale := vdiv maskSpacing outSpacing
  let bbNewLBound := vfloor (vsub (vmul (vsub (vtoQ lb) (vconst qhalf)) spacingScale)
    (vconst padDistance))
  let bbNewUBound := vceil (vadd (vmul (vsub (vadd (vtoQ lb) (vtoQ ext)) (vconst qhalf))
    spacingScale) (vconst padDistance))
  let maxUbound := Vec3.map (fun u => u - 1) (vceil (vmul (vtoQ maskSize) spacingScale))
  let clampedL := Vec3.map (fun l => if l < 0 then 0 else l) bbNewLBound
  let clampedU := Vec3.map2 (fun u mu => if u > mu then mu else u) bbNewUBound maxUbound
  let newSize := Vec3.map2 (fun u l => (u - l + 1).toNat) clampedU clampedL
  let bbOriginalLBound := vdiv (vtoQZ clampedL) spacingScale
  let newOriginIndex := vmul (vconst qhalf) (vdiv (vsub outSpacing maskSpacing) maskSpacing)
  let newOrigin := indexToPhys msk.grid (vadd newOriginIndex bbOriginalLBound)
  ⟨newSize, outSpacing, newOrigin, msk.grid.direction⟩

/-- Source function resampleImage (imageoperations.py lines 401-523): guard
against missing inputs, take the identity fast path when both spacings
already equal the requested spacing, validate the ROI, compute the
resampling grid, and resample the image with the caller-supplied
interpolator (an external grid-to-grid primitive, spec section 6) and the
mask with nearest-neighbor interpolation, each keeping its pixel type. -/
def resampleImage (imageNode : Option Image) (maskNode : Option Mask)
    (resampledPixelSpacing : Vec3 ℚ) (interpolate : Grid → Image → Vec3 ℕ → ℚ) (label : ℤ)
    (padDistance : ℚ) : Option Image × Option Mask :=
  match imageNode, maskNode with
  | some img, some msk =>
    if msk.grid.spacing = resampledPixelSpacing ∧ img.grid.spacing = resampledPixelSpacing then
      (some img, some msk)
    else
      match checkROI img msk label with
      | none => (none, none)
      | some bb =>
        let outGrid := resampleGrid msk resampledPixelSpacing padDistance bb
        (some ⟨outGrid, img.pixelType, interpolate outGrid img⟩,
         some ⟨outGrid, msk.pixelType, fun idx => nnSample msk outGrid idx⟩)
  | _, _ => (none, none)

/-- Projection of the x, y or z size of an optional image. -/
def imageSizeNth (o : Option Image) (ax : Fin 3) : Option ℕ :=
  o.map fun im => Vec3.nth im.grid.size ax

/-- Projection of the x, y or z size of an optional mask. -/
def maskSizeNth (o : Option Mask) (ax : Fin 3) : Option ℕ :=
  o.map fun m => Vec3.nth m.grid.size ax

/-- The minimum-size policy of checkMask as a boolean: skipped when no
minimum is configured, otherwise strict greater-than. -/
def sizePassB : Option ℕ → ℕ → Bool
  | none, _ => true
  | some ms, cnt => decide (ms < cnt)

/-- Stated from the spec wording (section 4.1 step 3): one transformed corner
coordinate lies within the closed interval from -0.5 - tol to
imageSize - 0.5 + tol on the given axis, with tol = 1e-3. -/
abbrev specCornerWithinTol (img : Image) (c : Vec3 ℚ) (ax : Fin 3) : Prop :=
  -(1/2) - 1/1000 ≤ Vec3.nth c ax ∧
    Vec3.nth c ax ≤ ((Vec3.nth img.grid.size ax : ℕ) : ℚ) - 1/2 + 1/1000

/-- Stated from the spec wording (section 4.5 steps 4-6): on one axis, the
resampled grid extent is newUpper - newLower + 1, where
newLower = floor((lower - 0.5) * r - padDistance) clamped to at least 0,
newUpper = ceil((lower + extent - 0.5) * r + padDistance) clamped to at most
ceil(maskSize * r) - 1, and r is the spacing quotient
maskSpacing / targetSpacing of the axis. -/
def specNewAxisSize (maskSpacingAx tsAx pad : ℚ) (lbAx extAx maskSizeAx : ℕ) : ℤ :=
  min (Int.ceil (((lbAx : ℚ) + (extAx : ℚ) - 1/2) * (maskSpacingAx / tsAx) + pad))
      (Int.ceil ((maskSizeAx : ℚ) * (maskSpacingAx / tsAx)) - 1) -
    max 0 (Int.floor (((lbAx : ℚ) - 1/2) * (maskSpacingAx / tsAx) - pad)) + 1

/-- A grid with unit spacing, zero origin and identity direction, shared by
the concrete test volumes below. -/
def idGrid (sz : Vec3 ℕ) : Grid := ⟨sz, vconst 1, vconst 0, Mat3.id⟩

/-- A trivial external interpolator used to instantiate resampleImage on
concrete inputs. -/
def interpZero : Grid → Image → Vec3 ℕ → ℚ := fun _ _ _ => 0

/-- Concrete 7 by 3 by 3 image with identity geometry. -/
def imgA : Image := ⟨idGrid ⟨7, 3, 3⟩, 0, fun _ => 0⟩

/-- Concrete mask on the same grid as imgA whose label-1 region is the line
x in 1..5, y = 1, z = 1, giving bounding-box extents (5, 1, 1). -/
def mskLine : Mask :=
  ⟨idGrid ⟨7, 3, 3⟩, 1, fun idx =>
    if 1 ≤ idx.x ∧ idx.x ≤ 5 ∧ idx.y = 1 ∧ idx.z = 1 then 1 else 0⟩

/-- Concrete mask on the same grid as imgA whose label-1 region is the cube
1..2 in each axis: 8 voxels, extents (2, 2, 2). -/
def mskSmallA : Mask :=
  ⟨idGrid ⟨7, 3, 3⟩, 1, fun idx =>
    if 1 ≤ idx.x ∧ idx.x ≤ 2 ∧ 1 ≤ idx.y ∧ idx.y ≤ 2 ∧ 1 ≤ idx.z ∧ idx.z ≤ 2 then 1 else 0⟩

/-- Concrete 10 by 10 by 10 image with identity geometry, the image of the
spec section 8 concrete scenarios. -/
def imgB : Image := ⟨idGrid ⟨10, 10, 10⟩, 0, fun _ => 0⟩

/-- Concrete mask on the same grid as imgB whose label-1 region is the cube
with lower corner (2,2,2) and extent (4,4,4), the ROI of the spec section 8
concrete scenarios. -/
def mskB : Mask :=
  ⟨idGrid ⟨10, 10, 10⟩, 1, fun idx =>
    if 2 ≤ idx.x ∧ idx.x ≤ 5 ∧ 2 ≤ idx.y ∧ idx.y ≤ 5 ∧ 2 ≤ idx.z ∧ idx.z ≤ 5 then 1 else 0⟩

/-- Concrete 7 by 5 by 3 image with identity geometry. -/
def imgC : Image := ⟨idGrid ⟨7, 5, 3⟩, 0, fun _ => 0⟩

/-- Concrete mask on the same grid as imgC whose label-1 region spans
x in 1..5, y in 1..3, z = 1: bounding-box extents (5, 3, 1), 15 voxels. -/
def mskC : Mask :=
  ⟨idGrid ⟨7, 5, 3⟩, 1, fun idx =>
    if 1 ≤ idx.x ∧ idx.x ≤ 5 ∧ 1 ≤ idx.y ∧ idx.y ≤ 3 ∧ idx.z = 1 then 1 else 0⟩

/-- Concrete 2 by 2 by 2 image with identity geometry. -/
def imgD : Image := ⟨idGrid ⟨2, 2, 2⟩, 0, fun _ => 0⟩

/-- Concrete all-background mask on the same grid as imgD: label 1 absent. -/
def mskEmpty : Mask := ⟨idGrid ⟨2, 2, 2⟩, 1, fun _ => 0⟩

/-- Concrete 6 by 6 by 6 image with identity geometry, larger than mskC8. -/
def imgC8 : Image := ⟨idGrid ⟨6, 6, 6⟩, 0, fun _ => 0⟩

/-- Concrete 5 by 5 by 5 mask with identity geometry and label-1 cube
1..3 in each axis; its shape differs from imgC8, so direct label statistics
fail with an incompatible-shape error. -/
def mskC8 : Mask :=
  ⟨idGrid ⟨5, 5, 5⟩, 1, fun idx =>
    if 1 ≤ idx.x ∧ idx.x ≤ 3 ∧ 1 ≤ idx.y ∧ idx.y ≤ 3 ∧ 1 ≤ idx.z ∧ idx.z ≤ 3 then 1 else 0⟩

/-- Concrete 5 by 4 by 4 image with identity geometry and distinguishable
voxel values, for the cropping claim. -/
def imgE : Image := ⟨idGrid ⟨5, 4, 4⟩, 3, fun idx => (idx.x : ℚ)⟩

/-- Concrete mask on the same grid as imgE with pixel type 2. -/
def mskE : Mask := ⟨idGrid ⟨5, 4, 4⟩, 2, fun idx => if idx.x = 1 then 1 else 0⟩

set_option maxRecDepth 100000

theorem qadd_eq (a b : ℚ) : qadd a b = a + b := (Rat.add_def' a b).symm

theorem qsub_eq (a b : ℚ) : qsub a b = a - b := (Rat.sub_def' a b).symm

theorem qmul_eq (a b : ℚ) : qmul a b = a * b := by
  rw [qmul, Rat.mul_def, Rat.normalize_eq_mkRat]

theorem qdiv_eq (a b : ℚ) : qdiv a b = a / b := by
  rw [qdiv, Rat.divInt_eq_div]
  rcases eq_or_ne b 0 with hb | hb
  · subst hb; simp
  · have hbn : (b.num : ℚ) ≠ 0 := by exact_mod_cast Rat.num_ne_zero.mpr hb
    have had : ((a.den : ℕ) : ℚ) ≠ 0 := by exact_mod_cast a.den_nz
    have hbd : ((b.den : ℕ) : ℚ) ≠ 0 := by exact_mod_cast b.den_nz
    have ha2 : (a.num : ℚ) = a * a.den := (div_eq_iff had).mp (Rat.num_div_den a)
    have hb2 : (b.num : ℚ) = b * b.den := (div_eq_iff hbd).mp (Rat.num_div_den b)
    have hY : ((b.num : ℚ) * (a.den : ℚ)) ≠ 0 := mul_ne_zero hbn had
    push_cast
    rw [div_eq_div_iff hY hb, ha2, hb2]
    ring

theorem qfloor_eq (a : ℚ) : qfloor a = Int.floor a := by
  rw [qfloor, Rat.floor_def', ← Rat.floor_def]

theorem qceil_eq (a : ℚ) : qceil a = Int.ceil a := by
  rw [qceil, show Rat.floor (-a) = Int.floor (-a) from qfloor_eq (-a), Int.floor_neg, neg_neg]

theorem qhalf_eq : qhalf = 1/2 := by
  rw [qhalf, Rat.mkRat_eq_divInt, Rat.divInt_eq_div]; norm_num

theorem qtol_eq : qtol = 1/1000 := by
  rw [qtol, Rat.mkRat_eq_divInt, Rat.divInt_eq_div]; norm_num

theorem qround_eq (a : ℚ) : qround a = round a := by
  rw [qround, qfloor_eq, qadd_eq, qhalf_eq, round_eq]

theorem qabs_eq (a : ℚ) : qabs a = abs a := by
  rw [qabs]
  rcases lt_or_le a 0 with h | h
  · rw [if_pos h, abs_of_neg h]
  · rw [if_neg (not_lt.mpr h), abs_of_nonneg h]

theorem qmin_eq (a b : ℚ) : qmin a b = min a b := (min_def a b).symm

theorem qmax_eq (a b : ℚ) : qmax a b = max a b := (max_def a b).symm

theorem nth_zero {A : Type} (v : Vec3 A) : Vec3.nth v 0 = v.x := rfl

theorem nth_one {A : Type} (v : Vec3 A) : Vec3.nth v 1 = v.y := rfl

theorem nth_two {A : Type} (v : Vec3 A) : Vec3.nth v 2 = v.z := rfl

/-- C1: contrary to the claim (and to the source docstring, which promises a
(None, None) return on any failed check), a failure of the dimensionality
check or of the minimum-size check leaves the already-computed bounding box
in the returned pair: on a line-shaped ROI of extents (5,1,1) with
minimumROIDimensions 1 the bounding box is returned non-null together with
the too-few-dimensions error, and on an 8-voxel ROI with minimumROISize 100
it is returned non-null together with the too-small error. -/
theorem checkMask_late_failures_keep_boundingBox :
    ((checkMask imgA mskLine 1 1 none false 0).boundingBox = some (⟨1, 1, 1⟩, ⟨5, 1, 1⟩) ∧
      (checkMask imgA mskLine 1 1 none false 0).error = some CheckError.tooFewDims) ∧
    ((checkMask imgA mskSmallA 1 1 (some 100) false 0).boundingBox =
        some (⟨1, 1, 1⟩, ⟨2, 2, 2⟩) ∧
      (checkMask imgA mskSmallA 1 1 (some 100) false 0).error = some CheckError.tooSmall) := by
  decide

/-- C5: when both the mask spacing and the image spacing already equal the
requested output spacing componentwise, resampleImage returns the very same
image and mask objects unchanged. -/
theorem resampleImage_identity_fast_path (img : Image) (msk : Mask) (ts : Vec3 ℚ)
    (interp : Grid → Image → Vec3 ℕ → ℚ) (label : ℤ) (pad : ℚ)
    (h1 : msk.grid.spacing = ts) (h2 : img.grid.spacing = ts) :
    resampleImage (some img) (some msk) ts interp label pad = (some img, some msk) := by
  unfold resampleImage
  dsimp only
  rw [if_pos ⟨h1, h2⟩]

/-- Witness for C5: on the concrete unit-spacing pair, requesting unit
spacing returns the inputs themselves. -/
theorem resampleImage_identity_fast_path_witness :
    resampleImage (some imgB) (some mskB) (vconst 1) interpZero 1 5 = (some imgB, some mskB) :=
  resampleImage_identity_fast_path imgB mskB (vconst 1) interpZero 1 5 rfl rfl

/-- C10: when either input of resampleImage is missing, the pair
(none, none) is returned for every value of the remaining arguments. -/
theorem resampleImage_none_guard (imageNode : Option Image) (maskNode : Option Mask)
    (ts : Vec3 ℚ) (interp : Grid → Image → Vec3 ℕ → ℚ) (label : ℤ) (pad : ℚ)
    (h : imageNode = none ∨ maskNode = none) :
    resampleImage imageNode maskNode ts interp label pad = (none, none) := by
  cases imageNode with
  | none => cases maskNode <;> rfl
  | some img =>
    cases maskNode with
    | none => rfl
    | some msk => rcases h with h | h <;> exact Option.noConfusion h

/-- Witness for C10: a missing image with a present mask yields
(none, none). -/
theorem resampleImage_none_guard_witness :
    resampleImage (none : Option Image) (some mskB) (vconst 2) interpZero 1 5 = (none, none) :=
  resampleImage_none_guard none (some mskB) (vconst 2) interpZero 1 5 (Or.inl rfl)

/-- Counterexample for C8: an incompatible-shape failure of the direct label
statistics is not always fatal — with correctMask enabled, checkMask on a
6-cubed image against a 5-cubed mask corrects the mask and succeeds,
returning a non-null bounding box instead of (None, None). -/
theorem checkMask_dataIncompatible_corrected_nonnull :
    lsifExec imgC8 mskC8 0 = some LsifError.dataIncompatible ∧
    (checkMask imgC8 mskC8 1 1 none true 0).boundingBox = some (⟨1, 1, 1⟩, ⟨3, 3, 3⟩) ∧
    (checkMask imgC8 mskC8 1 1 none true 0).error = none := by
  decide

/-- C8 (amended): when the direct label-statistics computation fails — with
an incompatible array shape/type or with a geometry mismatch — and
correctMask is disabled, checkMask reports the corresponding failure and
returns (None, None) rather than raising. -/
theorem checkMask_lsif_failure_correction_disabled (img : Image) (msk : Mask) (label : ℤ)
    (minDims : ℕ) (minSize : Option ℕ) (tolG : ℚ) (err : LsifError)
    (h : lsifExec img msk tolG = some err) :
    checkMask img msk label minDims minSize false tolG =
      ⟨none, none, some (lsifErrorReport err)⟩ := by
  unfold checkMask
  rw [h]
  rfl

/-- Witness for the amended C8: on the concrete shape-mismatched pair with
correctMask disabled, checkMask reports DataIncompatible and returns the
null pair. -/
theorem checkMask_lsif_failure_correction_disabled_witness :
    lsifExec imgC8 mskC8 0 = some LsifError.dataIncompatible ∧
    checkMask imgC8 mskC8 1 1 none false 0 =
      ⟨none, none, some (lsifErrorReport LsifError.dataIncompatible)⟩ :=
  ⟨by decide,
    checkMask_lsif_failure_correction_disabled imgC8 mskC8 1 1 none 0
      LsifError.dataIncompatible (by decide)⟩

/-- A mask without the requested label has an empty list of label voxels. -/
theorem labelIndices_eq_nil_of_not_present (m : Mask) (label : ℤ)
    (h : labelPresent m label = false) : labelIndices m label = [] := by
  unfold labelPresent at h
  cases hl : labelIndices m label with
  | nil => rfl
  | cons a l => rw [hl] at h; simp [List.isEmpty] at h

/-- C6: whenever the requested label is absent from the mask, checkMask
returns a null bounding box; on the direct-statistics path the reported
error is LabelAbsent; and checkROI returns Invalid without reaching the
bounds comparison. -/
theorem checkMask_label_absent (img : Image) (msk : Mask) (label : ℤ) (minDims : ℕ)
    (minSize : Option ℕ) (ce : Bool) (tolG : ℚ)
    (h : labelPresent msk label = false) :
    (checkMask img msk label minDims minSize ce tolG).boundingBox = none ∧
    (lsifExec img msk tolG = none →
      (checkMask img msk label minDims minSize ce tolG).error = some CheckError.labelAbsent) ∧
    checkROI img msk label = none := by
  have hnil : labelIndices msk label = [] := labelIndices_eq_nil_of_not_present msk label h
  have hbb : maskBoundingBox msk label = none := by unfold maskBoundingBox; rw [hnil]
  have hroi : checkROI img msk label = none := by unfold checkROI; rw [hbb]
  have hcm : correctMask img msk label = none := by unfold correctMask; rw [hroi]
  refine ⟨?_, ?_, hroi⟩
  · unfold checkMask
    cases hx : lsifExec img msk tolG with
    | none => rw [h]; rfl
    | some err =>
      cases ce with
      | false => rfl
      | true => rw [hcm]; rfl
  · intro hok
    unfold checkMask
    rw [hok, h]
    rfl

/-- Witness for C6: on the concrete all-background mask, checkMask returns a
null bounding box with the LabelAbsent report and checkROI returns none. -/
theorem checkMask_label_absent_witness :
    (checkMask imgD mskEmpty 1 1 none false 0).boundingBox = none ∧
    (checkMask imgD mskEmpty 1 1 none false 0).error = some CheckError.labelAbsent ∧
    checkROI imgD mskEmpty 1 = none := by
  have h := checkMask_label_absent imgD mskEmpty 1 1 none false 0 (by decide)
  exact ⟨h.1, h.2.1 (by decide), h.2.2⟩

/-- Nearest-neighbor sampling never blends labels: every sampled value is
either the outside default 0 or the exact label of some input voxel. -/
theorem nnSample_no_blend (m : Mask) (g : Grid) (idx : Vec3 ℕ) :
    nnSample m g idx = 0 ∨ ∃ src, nnSample m g idx = m.labels src := by
  unfold nnSample
  dsimp only
  split
  · right; exact ⟨_, rfl⟩
  · left; rfl

/-- C7: correctMask first validates the ROI and propagates Invalid without
resampling; on a valid ROI it returns the mask resampled onto the image grid
by nearest-neighbor sampling, which preserves the mask pixel type and never
blends label values — every output voxel carries either the outside default
0 or a value read exactly from some input voxel. -/
theorem correctMask_validate_then_resample (img : Image) (msk : Mask) (label : ℤ) :
    (checkROI img msk label = none → correctMask img msk label = none) ∧
    (∀ bb, checkROI img msk label = some bb →
      correctMask img msk label = some (resampleToReference img msk) ∧
      (resampleToReference img msk).pixelType = msk.pixelType ∧
      (resampleToReference img msk).grid = img.grid ∧
      ∀ idx, (resampleToReference img msk).labels idx = 0 ∨
        ∃ src, (resampleToReference img msk).labels idx = msk.labels src) := by
  constructor
  · intro h; unfold correctMask; rw [h]
  · intro bb h
    refine ⟨by unfold correctMask; rw [h], rfl, rfl, ?_⟩
    exact fun idx => nnSample_no_blend msk img.grid idx

/-- Witness for C7: on the concrete aligned pair with a valid ROI,
correctMask returns exactly the nearest-neighbor resampled mask and keeps
its pixel type. -/
theorem correctMask_validate_then_resample_witness :
    correctMask imgB mskB 1 = some (resampleToReference imgB mskB) ∧
    (resampleToReference imgB mskB).pixelType = mskB.pixelType := by
  have h := (correctMask_validate_then_resample imgB mskB 1).2 (⟨2, 2, 2⟩, ⟨4, 4, 4⟩)
    (by decide)
  exact ⟨h.1, h.2.1⟩

/-- C9: for a valid bounding box on a size-matched pair, cropToTumorMask
slices both volumes by identical margins (lower margin = lower index, upper
margin = size - upper - 1), the resulting image and mask sizes equal the
bounding-box extent upper - lower + 1 on every axis, the mask keeps its
original pixel type, and every output voxel is the input voxel shifted by
the lower bound. -/
theorem cropToTumorMask_extent (img : Image) (msk : Mask) (lb ub : Vec3 ℕ)
    (hsz : img.grid.size = msk.grid.size)
    (hlu : ∀ ax : Fin 3, Vec3.nth lb ax ≤ Vec3.nth ub ax)
    (hub : ∀ ax : Fin 3, Vec3.nth ub ax < Vec3.nth msk.grid.size ax) :
    (∀ ax : Fin 3, Vec3.nth (cropToTumorMask img msk (lb, ub)).1.grid.size ax =
      Vec3.nth ub ax - Vec3.nth lb ax + 1) ∧
    (∀ ax : Fin 3, Vec3.nth (cropToTumorMask img msk (lb, ub)).2.grid.size ax =
      Vec3.nth ub ax - Vec3.nth lb ax + 1) ∧
    (cropToTumorMask img msk (lb, ub)).2.pixelType = msk.pixelType ∧
    (∀ idx, (cropToTumorMask img msk (lb, ub)).1.values idx = img.values (vaddN idx lb)) ∧
    (∀ idx, (cropToTumorMask img msk (lb, ub)).2.labels idx = msk.labels (vaddN idx lb)) := by
  have hx : img.grid.size.x = msk.grid.size.x := by rw [hsz]
  have hy : img.grid.size.y = msk.grid.size.y := by rw [hsz]
  have hz : img.grid.size.z = msk.grid.size.z := by rw [hsz]
  have l1 : lb.x ≤ ub.x := hlu 0
  have l2 : lb.y ≤ ub.y := hlu 1
  have l3 : lb.z ≤ ub.z := hlu 2
  have u1 : ub.x < msk.grid.size.x := hub 0
  have u2 : ub.y < msk.grid.size.y := hub 1
  have u3 : ub.z < msk.grid.size.z := hub 2
  refine ⟨?_, ?_, rfl, fun idx => rfl, fun idx => rfl⟩ <;> intro ax
  · match ax with
    | 0 =>
      show img.grid.size.x - lb.x - (msk.grid.size.x - ub.x - 1) = ub.x - lb.x + 1
      omega
    | 1 =>
      show img.grid.size.y - lb.y - (msk.grid.size.y - ub.y - 1) = ub.y - lb.y + 1
      omega
    | 2 =>
      show img.grid.size.z - lb.z - (msk.grid.size.z - ub.z - 1) = ub.z - lb.z + 1
      omega
  · match ax with
    | 0 =>
      show msk.grid.size.x - lb.x - (msk.grid.size.x - ub.x - 1) = ub.x - lb.x + 1
      omega
    | 1 =>
      show msk.grid.size.y - lb.y - (msk.grid.size.y - ub.y - 1) = ub.y - lb.y + 1
      omega
    | 2 =>
      show msk.grid.size.z - lb.z - (msk.grid.size.z - ub.z - 1) = ub.z - lb.z + 1
      omega

/-- Witness for C9: cropping the concrete 5 by 4 by 4 pair to the bounding
box with lower (1,0,2) and upper (3,2,2) yields sizes (3,3,1) on both
outputs, keeps the mask pixel type, and reads shifted voxels. -/
theorem cropToTumorMask_extent_witness :
    (cropToTumorMask imgE mskE (⟨1, 0, 2⟩, ⟨3, 2, 2⟩)).1.grid.size = ⟨3, 3, 1⟩ ∧
    (cropToTumorMask imgE mskE (⟨1, 0, 2⟩, ⟨3, 2, 2⟩)).2.grid.size = ⟨3, 3, 1⟩ ∧
    (cropToTumorMask imgE mskE (⟨1, 0, 2⟩, ⟨3, 2, 2⟩)).2.pixelType = mskE.pixelType ∧
    (cropToTumorMask imgE mskE (⟨1, 0, 2⟩, ⟨3, 2, 2⟩)).1.values ⟨0, 0, 0⟩ =
      imgE.values (vaddN ⟨0, 0, 0⟩ ⟨1, 0, 2⟩) := by
  have h := cropToTumorMask_extent imgE mskE ⟨1, 0, 2⟩ ⟨3, 2, 2⟩ rfl
    (by decide) (by decide)
  exact ⟨by decide, by decide, h.2.2.1, h.2.2.2.1 ⟨0, 0, 0⟩⟩

/-- C4: once the direct statistics succeed and the label is present,
checkMask succeeds exactly when the number of axes with bounding-box extent
strictly greater than one strictly exceeds minDims and, when a minimum size
is configured, the ROI voxel count strictly exceeds it (the size check being
skipped when no minimum is configured); a dimensionality failure is reported
as the too-few-dimensions error. -/
theorem checkMask_dimensionality_size_checks (img : Image) (msk : Mask) (label : ℤ)
    (minDims : ℕ) (minSize : Option ℕ) (ce : Bool) (tolG : ℚ) (lb ub : Vec3 ℕ)
    (hok : lsifExec img msk tolG = none)
    (hpres : labelPresent msk label = true)
    (hbb : lsifBB msk label = some (lb, ub)) :
    ((checkMask img msk label minDims minSize ce tolG).error = none ↔
      minDims < dimCount lb ub ∧ sizePassB minSize (lsifCount msk label) = true) ∧
    ((checkMask img msk label minDims minSize ce tolG).error = some CheckError.tooFewDims ↔
      dimCount lb ub ≤ minDims) ∧
    (minSize = none → minDims < dimCount lb ub →
      (checkMask img msk label minDims minSize ce tolG).error = none) := by
  have hcm : checkMask img msk label minDims minSize ce tolG =
      postChecks msk none label minDims minSize := by
    unfold checkMask
    rw [hok, hpres]
    rfl
  rw [hcm]
  unfold postChecks
  rw [hbb]
  dsimp only
  by_cases hdim : dimCount lb ub ≤ minDims
  · rw [if_pos hdim]
    refine ⟨?_, ?_, ?_⟩
    · constructor
      · intro hcontra; exact absurd hcontra (by simp)
      · rintro ⟨hlt, _⟩; omega
    · simp [hdim]
    · intro _ hlt; omega
  · rw [if_neg hdim]
    have hlt : minDims < dimCount lb ub := not_le.mp hdim
    cases minSize with
    | none =>
      refine ⟨?_, ?_, ?_⟩
      · simp [sizePassB, hlt]
      · simp [hdim]
      · intro _ _; rfl
    | some ms =>
      dsimp only
      by_cases hsz : lsifCount msk label ≤ ms
      · rw [if_pos hsz]
        refine ⟨?_, ?_, ?_⟩
        · simp only [sizePassB, decide_eq_true_eq]
          constructor
          · intro hcontra; exact absurd hcontra (by simp)
          · rintro ⟨_, h2⟩; omega
        · simp [hdim]
        · intro hcontra; exact Option.noConfusion hcontra
      · rw [if_neg hsz]
        refine ⟨?_, ?_, ?_⟩
        · simp only [sizePassB, decide_eq_true_eq]
          constructor
          · intro _; exact ⟨hlt, by omega⟩
          · intro _; trivial
        · simp [hdim]
        · intro hcontra; exact Option.noConfusion hcontra

/-- Witness for C4: the concrete ROI with bounding-box extents (5, 3, 1) —
two non-degenerate axes — passes minimumROIDimensions 1 with 15 voxels
against minimumROISize 10, so checkMask reports no error. -/
theorem checkMask_dimensionality_size_checks_witness :
    lsifBB mskC 1 = some (⟨1, 1, 1⟩, ⟨5, 3, 1⟩) ∧
    (checkMask imgC mskC 1 1 (some 10) false 0).error = none := by
  have h := checkMask_dimensionality_size_checks imgC mskC 1 1 (some 10) false 0
    ⟨1, 1, 1⟩ ⟨5, 3, 1⟩ (by decide) (by decide) (by decide)
  exact ⟨by decide, h.1.mpr (by decide)⟩

/-- A statement about every axis is a statement about the three axes. -/
theorem forall_fin3 {P : Fin 3 → Prop} : (∀ ax : Fin 3, P ax) ↔ P 0 ∧ P 1 ∧ P 2 := by
  constructor
  · intro h; exact ⟨h 0, h 1, h 2⟩
  · rintro ⟨h0, h1, h2⟩ ax
    match ax with
    | 0 => exact h0
    | 1 => exact h1
    | 2 => exact h2

/-- The out-of-bounds test fails exactly when, on every axis, both corner
coordinates lie within the tolerance-widened image index interval. -/
theorem roiOutOfBounds_eq_false_iff (img : Image) (c1 c2 : Vec3 ℚ) :
    roiOutOfBounds img c1 c2 = false ↔
      ∀ ax : Fin 3, specCornerWithinTol img c1 ax ∧ specCornerWithinTol img c2 ax := by
  rw [forall_fin3]
  unfold roiOutOfBounds anyLt anyGt vmin vmax vconst vadd vsub vtoQ Vec3.map2 Vec3.map
  dsimp only [specCornerWithinTol, nth_zero, nth_one, nth_two]
  simp only [Bool.or_eq_false_iff, decide_eq_false_iff_not, not_lt, qmin_eq, qmax_eq,
    qsub_eq, qadd_eq, qhalf_eq, qtol_eq, le_min_iff, max_le_iff]
  tauto

/-- C3: given the label bounding box computed in the mask index space,
checkROI returns it exactly when, for every axis, both transformed corner
points — the lower corner minus half a voxel and the lower-plus-extent
corner minus half a voxel, mapped through the mask index-to-physical and the
image physical-to-index transforms — lie within the interval from
-0.5 - 1e-3 to imageSize - 0.5 + 1e-3, and returns Invalid exactly when
some axis violates this on either corner. -/
theorem checkROI_corner_bounds_iff (img : Image) (msk : Mask) (label : ℤ) (lb ext : Vec3 ℕ)
    (hbb : maskBoundingBox msk label = some (lb, ext)) :
    (checkROI img msk label = some (lb, ext) ↔
      ∀ ax : Fin 3, specCornerWithinTol img (roiCornerLow img msk lb) ax ∧
        specCornerWithinTol img (roiCornerHigh img msk lb ext) ax) ∧
    (checkROI img msk label = none ↔
      ¬ ∀ ax : Fin 3, specCornerWithinTol img (roiCornerLow img msk lb) ax ∧
        specCornerWithinTol img (roiCornerHigh img msk lb ext) ax) := by
  have key := roiOutOfBounds_eq_false_iff img (roiCornerLow img msk lb)
    (roiCornerHigh img msk lb ext)
  unfold checkROI
  rw [hbb]
  dsimp only
  cases hob : roiOutOfBounds img (roiCornerLow img msk lb) (roiCornerHigh img msk lb ext) with
  | false =>
    rw [hob] at key
    rw [if_neg Bool.false_ne_true]
    have hcond := key.mp rfl
    constructor
    · exact ⟨fun _ => hcond, fun _ => rfl⟩
    · constructor
      · intro hcontra; exact absurd hcontra (by simp)
      · intro hncond; exact absurd hcond hncond
  | true =>
    rw [if_pos rfl]
    have hncond : ¬ ∀ ax : Fin 3, specCornerWithinTol img (roiCornerLow img msk lb) ax ∧
        specCornerWithinTol img (roiCornerHigh img msk lb ext) ax := by
      intro hc
      rw [key.mpr hc] at hob
      exact Bool.false_ne_true hob
    constructor
    · constructor
      · intro hcontra; exact absurd hcontra (by simp)
      · intro hc; exact absurd hc hncond
    · exact ⟨fun _ => hncond, fun _ => rfl⟩

/-- Witness for C3: the concrete aligned ROI satisfies the corner condition,
so checkROI returns its bounding box lower (2,2,2) and extent (4,4,4). -/
theorem checkROI_corner_bounds_iff_witness :
    checkROI imgB mskB 1 = some (⟨2, 2, 2⟩, ⟨4, 4, 4⟩) :=
  ((checkROI_corner_bounds_iff imgB mskB 1 ⟨2, 2, 2⟩ ⟨4, 4, 4⟩ (by decide)).1).mpr
    ((roiOutOfBounds_eq_false_iff imgB (roiCornerLow imgB mskB ⟨2, 2, 2⟩)
      (roiCornerHigh imgB mskB ⟨2, 2, 2⟩ ⟨4, 4, 4⟩)).mp (by decide))

/-- The where-style upper clamp of the source is the binary minimum. -/
theorem ite_gt_eq_min (u mu : ℤ) : (if u > mu then mu else u) = min u mu := by
  rcases le_or_lt u mu with h | h
  · rw [if_neg (not_lt.mpr h)]; exact (min_eq_left h).symm
  · rw [if_pos h]; exact (min_eq_right h.le).symm

/-- The where-style lower clamp of the source is the maximum with zero. -/
theorem ite_neg_clamp (l : ℤ) : (if l < 0 then 0 else l) = max 0 l := by
  rcases lt_or_le l 0 with h | h
  · rw [if_pos h]; exact (max_eq_left h.le).symm
  · rw [if_neg (not_lt.mpr h)]; exact (max_eq_right h).symm

/-- C2: when resampleImage actually resamples (fast path not taken, ROI
valid), then on every axis whose ROI extent is not one the sizes of the
returned image and mask both equal the closed form
newUpper - newLower + 1 with newLower = floor((lower - 0.5) * r - pad)
clamped below by 0 and newUpper = ceil((lower + extent - 0.5) * r + pad)
clamped above by ceil(maskSize * r) - 1, where r = maskSpacing / targetSpacing. -/
theorem resampleImage_grid_bounds (img : Image) (msk : Mask) (ts : Vec3 ℚ)
    (interp : Grid → Image → Vec3 ℕ → ℚ) (label : ℤ) (pad : ℚ) (lb ext : Vec3 ℕ)
    (hroi : checkROI img msk label = some (lb, ext))
    (hfast : ¬(msk.grid.spacing = ts ∧ img.grid.spacing = ts)) :
    ∀ ax : Fin 3, Vec3.nth ext ax ≠ 1 →
      imageSizeNth (resampleImage (some img) (some msk) ts interp label pad).1 ax =
        some (specNewAxisSize (Vec3.nth msk.grid.spacing ax) (Vec3.nth ts ax) pad
          (Vec3.nth lb ax) (Vec3.nth ext ax) (Vec3.nth msk.grid.size ax)).toNat ∧
      maskSizeNth (resampleImage (some img) (some msk) ts interp label pad).2 ax =
        some (specNewAxisSize (Vec3.nth msk.grid.spacing ax) (Vec3.nth ts ax) pad
          (Vec3.nth lb ax) (Vec3.nth ext ax) (Vec3.nth msk.grid.size ax)).toNat := by
  have hres : resampleImage (some img) (some msk) ts interp label pad =
      (some ⟨resampleGrid msk ts pad (lb, ext), img.pixelType,
         interp (resampleGrid msk ts pad (lb, ext)) img⟩,
       some ⟨resampleGrid msk ts pad (lb, ext), msk.pixelType,
         fun idx => nnSample msk (resampleGrid msk ts pad (lb, ext)) idx⟩) := by
    unfold resampleImage
    dsimp only
    rw [if_neg hfast, hroi]
  intro ax hax
  rw [hres]
  have hgoal : Vec3.nth (resampleGrid msk ts pad (lb, ext)).size ax =
      (specNewAxisSize (Vec3.nth msk.grid.spacing ax) (Vec3.nth ts ax) pad
        (Vec3.nth lb ax) (Vec3.nth ext ax) (Vec3.nth msk.grid.size ax)).toNat := by
    match ax with
    | 0 =>
      have hax1 : ext.x ≠ 1 := hax
      show ((if qceil (qadd (qmul (qsub (qadd ((lb.x : ℕ) : ℚ) ((ext.x : ℕ) : ℚ)) qhalf)
              (qdiv msk.grid.spacing.x (if ext.x ≠ 1 then ts.x else msk.grid.spacing.x)))
              pad) >
            qceil (qmul ((msk.grid.size.x : ℕ) : ℚ)
              (qdiv msk.grid.spacing.x (if ext.x ≠ 1 then ts.x else msk.grid.spacing.x))) - 1
          then qceil (qmul ((msk.grid.size.x : ℕ) : ℚ)
              (qdiv msk.grid.spacing.x (if ext.x ≠ 1 then ts.x else msk.grid.spacing.x))) - 1
          else qceil (qadd (qmul (qsub (qadd ((lb.x : ℕ) : ℚ) ((ext.x : ℕ) : ℚ)) qhalf)
              (qdiv msk.grid.spacing.x (if ext.x ≠ 1 then ts.x else msk.grid.spacing.x)))
              pad)) -
          (if qfloor (qsub (qmul (qsub ((lb.x : ℕ) : ℚ) qhalf)
              (qdiv msk.grid.spacing.x (if ext.x ≠ 1 then ts.x else msk.grid.spacing.x)))
              pad) < 0
          then 0
          else qfloor (qsub (qmul (qsub ((lb.x : ℕ) : ℚ) qhalf)
              (qdiv msk.grid.spacing.x (if ext.x ≠ 1 then ts.x else msk.grid.spacing.x)))
              pad)) + 1).toNat =
        (specNewAxisSize msk.grid.spacing.x ts.x pad lb.x ext.x msk.grid.size.x).toNat
      rw [if_pos hax1]
      simp only [specNewAxisSize, ite_gt_eq_min, ite_neg_clamp, qceil_eq, qfloor_eq,
        qadd_eq, qsub_eq, qmul_eq, qdiv_eq, qhalf_eq]
    | 1 =>
      have hax1 : ext.y ≠ 1 := hax
      show ((if qceil (qadd (qmul (qsub (qadd ((lb.y : ℕ) : ℚ) ((ext.y : ℕ) : ℚ)) qhalf)
              (qdiv msk.grid.spacing.y (if ext.y ≠ 1 then ts.y else msk.grid.spacing.y)))
              pad) >
            qceil (qmul ((msk.grid.size.y : ℕ) : ℚ)
              (qdiv msk.grid.spacing.y (if ext.y ≠ 1 then ts.y else msk.grid.spacing.y))) - 1
          then qceil (qmul ((msk.grid.size.y : ℕ) : ℚ)
              (qdiv msk.grid.spacing.y (if ext.y ≠ 1 then ts.y else msk.grid.spacing.y))) - 1
          else qceil (qadd (qmul (qsub (qadd ((lb.y : ℕ) : ℚ) ((ext.y : ℕ) : ℚ)) qhalf)
              (qdiv msk.grid.spacing.y (if ext.y ≠ 1 then ts.y else msk.grid.spacing.y)))
              pad)) -
          (if qfloor (qsub (qmul (qsub ((lb.y : ℕ) : ℚ) qhalf)
              (qdiv msk.grid.spacing.y (if ext.y ≠ 1 then ts.y else msk.grid.spacing.y)))
              pad) < 0
          then 0
          else qfloor (qsub (qmul (qsub ((lb.y : ℕ) : ℚ) qhalf)
              (qdiv msk.grid.spacing.y (if ext.y ≠ 1 then ts.y else msk.grid.spacing.y)))
              pad)) + 1).toNat =
        (specNewAxisSize msk.grid.spacing.y ts.y pad lb.y ext.y msk.grid.size.y).toNat
      rw [if_pos hax1]
      simp only [specNewAxisSize, ite_gt_eq_min, ite_neg_clamp, qceil_eq, qfloor_eq,
        qadd_eq, qsub_eq, qmul_eq, qdiv_eq, qhalf_eq]
    | 2 =>
      have hax1 : ext.z ≠ 1 := hax
      show ((if qceil (qadd (qmul (qsub (qadd ((lb.z : ℕ) : ℚ) ((ext.z : ℕ) : ℚ)) qhalf)
              (qdiv msk.grid.spacing.z (if ext.z ≠ 1 then ts.z else msk.grid.spacing.z)))
              pad) >
            qceil (qmul ((msk.grid.size.z : ℕ) : ℚ)
              (qdiv msk.grid.spacing.z (if ext.z ≠ 1 then ts.z else msk.grid.spacing.z))) - 1
          then qceil (qmul ((msk.grid.size.z : ℕ) : ℚ)
              (qdiv msk.grid.spacing.z (if ext.z ≠ 1 then ts.z else msk.grid.spacing.z))) - 1
          else qceil (qadd (qmul (qsub (qadd ((lb.z : ℕ) : ℚ) ((ext.z : ℕ) : ℚ)) qhalf)
              (qdiv msk.grid.spacing.z (if ext.z ≠ 1 then ts.z else msk.grid.spacing.z)))
              pad)) -
          (if qfloor (qsub (qmul (qsub ((lb.z : ℕ) : ℚ) qhalf)
              (qdiv msk.grid.spacing.z (if ext.z ≠ 1 then ts.z else msk.grid.spacing.z)))
              pad) < 0
          then 0
          else qfloor (qsub (qmul (qsub ((lb.z : ℕ) : ℚ) qhalf)
              (qdiv msk.grid.spacing.z (if ext.z ≠ 1 then ts.z else msk.grid.spacing.z)))
              pad)) + 1).toNat =
        (specNewAxisSize msk.grid.spacing.z ts.z pad lb.z ext.z msk.grid.size.z).toNat
      rw [if_pos hax1]
      simp only [specNewAxisSize, ite_gt_eq_min, ite_neg_clamp, qceil_eq, qfloor_eq,
        qadd_eq, qsub_eq, qmul_eq, qdiv_eq, qhalf_eq]
  exact ⟨congrArg (fun n => some n) hgoal, congrArg (fun n => some n) hgoal⟩

/-- Witness for C2: resampling the concrete pair from spacing (1,1,1) to
(2,2,2) with padDistance 0 on the ROI with lower (2,2,2) and extent (4,4,4)
yields a grid whose x extent is the closed form
ceil((2 + 4 - 0.5) * 0.5) - floor((2 - 0.5) * 0.5) + 1 = 4. -/
theorem resampleImage_grid_bounds_witness :
    checkROI imgB mskB 1 = some (⟨2, 2, 2⟩, ⟨4, 4, 4⟩) ∧
    (specNewAxisSize 1 2 0 2 4 10).toNat = 4 ∧
    imageSizeNth (resampleImage (some imgB) (some mskB) (vconst 2) interpZero 1 0).1 0 =
      some 4 ∧
    maskSizeNth (resampleImage (some imgB) (some mskB) (vconst 2) interpZero 1 0).2 0 =
      some 4 := by
  have h := resampleImage_grid_bounds imgB mskB (vconst 2) interpZero 1 0 ⟨2, 2, 2⟩
    ⟨4, 4, 4⟩ (by decide) (by decide) 0 (by decide)
  have hceil1 : Int.ceil ((((2 : ℕ) : ℚ) + ((4 : ℕ) : ℚ) - 1/2) * ((1 : ℚ) / 2) + 0) = 3 := by
    rw [Int.ceil_eq_iff]; norm_num
  have hceil2 : Int.ceil ((((10 : ℕ) : ℚ)) * ((1 : ℚ) / 2)) = 5 := by
    rw [Int.ceil_eq_iff]; norm_num
  have hfloor : Int.floor ((((2 : ℕ) : ℚ) - 1/2) * ((1 : ℚ) / 2) - 0) = 0 := by
    rw [Int.floor_eq_iff]; norm_num
  have hval : (specNewAxisSize 1 2 0 2 4 10).toNat = 4 := by
    unfold specNewAxisSize
    rw [hceil1, hceil2, hfloor]
    decide
  refine ⟨by decide, hval, ?_, ?_⟩
  · exact h.1.trans (congrArg (fun n => some n) hval)
  · exact h.2.trans (congrArg (fun n => some n) hval)

end Radiomics
